import Mathlib

/-!
Verification development for the `RD-Symlinks` synchronization engine
(`rd-sym.py`).  The Python code is shallowly embedded: pure string
manipulation becomes functions on `List Char` / `String`, the sqlite-backed
symlink ledger becomes an association list, filesystem state and the
external TMDb service become explicit oracle parameters, and the two
per-file processing routines (`process_movie`, `process_series`) become
functions that return the list of performed side effects together with the
updated ledger.  Machine behaviour that the Python runtime supplies
(truthiness, `str.replace(..., 1)`, `functools.lru_cache`, f-strings,
`str.title`, regular-expression substitutions actually exercised by the
claims) is reproduced faithfully from the source.
-/

set_option autoImplicit false

namespace RDSym

/-! ## Character-list string helpers -/

/-- Boolean test that `w` is a prefix of `s`. -/
def isPrefixCh : List Char → List Char → Bool
  | [], _ => true
  | _ :: _, [] => false
  | a :: w, b :: s => a == b && isPrefixCh w s

/-- Boolean substring test: does `w` occur contiguously inside `s`? -/
def containsCh : List Char → List Char → Bool
  | [], w => isPrefixCh w []
  | c :: rest, w => isPrefixCh w (c :: rest) || containsCh rest w

/-- Model of Python `s.replace(w, "", 1)`: remove the first (leftmost)
occurrence of `w` from `s`; `s` is returned unchanged when `w` does not
occur. -/
def removeFirst (w : List Char) : List Char → List Char
  | [] => []
  | c :: rest =>
    if isPrefixCh w (c :: rest) then List.drop w.length (c :: rest)
    else c :: removeFirst w rest

/-- Model of Python `s.rstrip(bad)`: drop trailing characters belonging to
`bad`. -/
def rstripSet (bad : List Char) (s : List Char) : List Char :=
  (s.reverse.dropWhile (fun c => bad.contains c)).reverse

/-- Model of Python `s.strip()`: drop leading and trailing whitespace. -/
def pyStrip (s : List Char) : List Char :=
  ((s.dropWhile Char.isWhitespace).reverse.dropWhile Char.isWhitespace).reverse

/-- Position after the first `]` of `s`, when `s` contains one. -/
def afterCloseBracket : List Char → Option (List Char)
  | [] => none
  | c :: rest => if c = ']' then some rest else afterCloseBracket rest

theorem afterCloseBracket_length :
    ∀ (s r : List Char), afterCloseBracket s = some r → r.length < s.length := by
  intro s
  induction s with
  | nil => intro r h; simp [afterCloseBracket] at h
  | cons c rest ih =>
    intro r h
    by_cases hc : c = ']'
    · simp [afterCloseBracket, hc] at h
      simp [← h]
    · simp [afterCloseBracket, hc] at h
      have := ih r h
      simp
      omega

/-- Fueled worker for `removeSquare`; the fuel only serves to make the
recursion structural (and hence kernel-reducible), `s.length` steps always
suffice because every recursive call strictly shrinks the list. -/
def removeSquareGo : Nat → List Char → List Char
  | 0, s => s
  | _ + 1, [] => []
  | fuel + 1, c :: rest =>
    if c = '[' then
      match afterCloseBracket rest with
      | some r => removeSquareGo fuel r
      | none => c :: rest
    else c :: removeSquareGo fuel rest

/-- Model of Python `re.sub(r"\[.*?\]", "", s)`: repeatedly delete the
leftmost lazily-matched `[` … `]` block; a `[` with no later `]` is kept
verbatim. -/
def removeSquare (s : List Char) : List Char :=
  removeSquareGo s.length s

/-! ## `Handler.clean_file_name` (rd-sym.py lines 267–275)

The Python source stores the removable release tags in a `set` literal, so
the interpreter's iteration order is unspecified; the list below keeps the
order of the source text.  None of the theorems below depend on that
order. -/

/-- The release-tag tokens of `words_to_remove` in `clean_file_name`. -/
def words_to_remove : List (List Char) :=
  ["TEPES".data, "rartv".data, "1080p".data, "720p".data, "x264".data,
   "x265".data, "WEB-DL".data, "BluRay".data, "BRRip".data, "WEBRip".data]

/-- Model of `Handler.clean_file_name`: remove the *first* occurrence of
each recognized release tag, right-strip `.`/`-`/space, delete `[...]`
blocks, and strip whitespace. -/
def clean_file_name (name : String) : String :=
  let s1 := words_to_remove.foldl (fun acc w => removeFirst w acc) name.data
  let s2 := rstripSet ['.', '-', ' '] s1
  let s3 := removeSquare s2
  String.mk (pyStrip s3)

/-- C7 counterexample: the input `"1080p.1080p"` contains the recognized
release tag `1080p` twice; `clean_file_name` removes only the first
occurrence, so the tag is still present in the output, contradicting the
claim that every recognized token is absent from the output for every
input, including inputs containing a token more than once. -/
theorem C7_counterexample :
    containsCh (clean_file_name "1080p.1080p").data "1080p".data = true := by
  decide

/-- C7 (amended): `clean_file_name` removes only the first occurrence of
each recognized release tag.  For every token `w` of the configured set, an
input consisting of the single token normalizes to the empty string (the
token is absent), while the input `w.w` containing the token twice retains
the token in its output.  Determinism and totality of the normalizer are
immediate: the model is a pure total function. -/
theorem C7_amended_token_removal (w : List Char) (h : w ∈ words_to_remove) :
    clean_file_name (String.mk w) = "" ∧
      containsCh (clean_file_name (String.mk (w ++ '.' :: w))).data w = true := by
  fin_cases h <;> decide

/-- Witness for `C7_amended_token_removal` at the concrete token `1080p`. -/
theorem C7_amended_token_removal_witness :
    "1080p".data ∈ words_to_remove ∧
      (clean_file_name (String.mk "1080p".data) = "" ∧
        containsCh (clean_file_name (String.mk ("1080p".data ++ '.' :: "1080p".data))).data
          "1080p".data = true) :=
  ⟨by decide, C7_amended_token_removal "1080p".data (by decide)⟩

/-! ## Symlink ledger (the sqlite `symlink_map` tables)

Each store is a table `(file_path TEXT PRIMARY KEY, symlink_path TEXT)`,
modelled as an association list whose keys are unique (the primary-key
invariant appears as a `Nodup` hypothesis where it matters). -/

/-- One ledger store: `(file_path, symlink_path)` rows. -/
abbrev Ledger := List (String × String)

/-- Model of `Handler.get_symlink`: the recorded link path for a source
path, if any. -/
def get_symlink : Ledger → String → Option String
  | [], _ => none
  | (k, v) :: rest, key => if k = key then some v else get_symlink rest key

/-- Model of `Handler.add_symlink` (`REPLACE INTO symlink_map`): upsert a
row for `k`. -/
def add_symlink (l : Ledger) (k v : String) : Ledger :=
  (k, v) :: l.filter (fun r => decide (r.1 ≠ k))

/-- Model of `Handler.remove_symlink` (`DELETE FROM symlink_map WHERE
file_path = ?`). -/
def remove_symlink (l : Ledger) (k : String) : Ledger :=
  l.filter (fun r => decide (r.1 ≠ k))

/-- Number of rows recorded for a source path. -/
def countRecords (l : Ledger) (k : String) : Nat :=
  (l.filter (fun r => decide (r.1 = k))).length

/-- A row is live when its recorded link path exists and is a symlink
(the keep-condition of `Handler.validate_symlinks`, line 203). -/
def rowLive (pathExists isSymlink : String → Bool) (row : String × String) : Bool :=
  pathExists row.2 && isSymlink row.2

/-- Model of one store's pass in `Handler.validate_symlinks` (lines
194–208): the rows are snapshotted with `SELECT`, then every row whose
recorded link path no longer exists or is no longer a symlink is deleted
from the store by its source-path key. -/
def validate_symlinks (pathExists isSymlink : String → Bool) (store : Ledger) : Ledger :=
  store.foldl
    (fun acc row =>
      if rowLive pathExists isSymlink row then acc else remove_symlink acc row.1)
    store

/-- Source paths of the snapshotted rows that fail the liveness check. -/
def deadKeys (pathExists isSymlink : String → Bool) (rows : Ledger) : List String :=
  (rows.filter (fun r => !rowLive pathExists isSymlink r)).map Prod.fst

theorem validate_symlinks_foldl_eq (pathExists isSymlink : String → Bool) :
    ∀ (rows acc : Ledger),
      rows.foldl
        (fun acc row =>
          if rowLive pathExists isSymlink row then acc else remove_symlink acc row.1)
        acc =
      acc.filter (fun r => decide (r.1 ∉ deadKeys pathExists isSymlink rows)) := by
  intro rows
  induction rows with
  | nil =>
    intro acc
    simp [deadKeys]
  | cons q rows ih =>
    intro acc
    by_cases hq : rowLive pathExists isSymlink q = true
    · simp only [List.foldl_cons, hq, if_true, ih]
      have : deadKeys pathExists isSymlink (q :: rows) =
          deadKeys pathExists isSymlink rows := by
        simp [deadKeys, hq]
      rw [this]
    · have hq' : rowLive pathExists isSymlink q = false := by
        simpa using hq
      simp only [List.foldl_cons, hq', if_false, ih, Bool.false_eq_true]
      have hdk : deadKeys pathExists isSymlink (q :: rows) =
          q.1 :: deadKeys pathExists isSymlink rows := by
        simp [deadKeys, hq']
      rw [hdk, remove_symlink, List.filter_filter]
      apply List.filter_congr
      intro r _
      simp only [List.mem_cons, not_or, Bool.decide_and]
      rw [Bool.and_comm]

/-- C9: after the startup validation pass, every remaining row's recorded
link path exists and is a symlink; every snapshotted row that fails this
check is deleted from its store; rows with live links are never deleted.
The `Nodup` hypothesis is the sqlite primary-key invariant on
`file_path`. -/
theorem C9_validate_symlinks_selfheal (pathExists isSymlink : String → Bool)
    (store : Ledger) (hpk : (store.map Prod.fst).Nodup) :
    (∀ r ∈ validate_symlinks pathExists isSymlink store,
        pathExists r.2 = true ∧ isSymlink r.2 = true) ∧
    (∀ r ∈ store, (pathExists r.2 = false ∨ isSymlink r.2 = false) →
        r ∉ validate_symlinks pathExists isSymlink store) ∧
    (∀ r ∈ store, pathExists r.2 = true → isSymlink r.2 = true →
        r ∈ validate_symlinks pathExists isSymlink store) := by
  have hval : validate_symlinks pathExists isSymlink store =
      store.filter (fun r => decide (r.1 ∉ deadKeys pathExists isSymlink store)) :=
    validate_symlinks_foldl_eq pathExists isSymlink store store
  refine ⟨?_, ?_, ?_⟩
  · intro r hr
    rw [hval, List.mem_filter] at hr
    obtain ⟨hrs, hrk⟩ := hr
    rw [decide_eq_true_eq] at hrk
    by_contra hcon
    have hdead : r.1 ∈ deadKeys pathExists isSymlink store := by
      refine List.mem_map.mpr ⟨r, ?_, rfl⟩
      refine List.mem_filter.mpr ⟨hrs, ?_⟩
      simp only [rowLive, Bool.not_eq_eq_eq_not, Bool.not_true, Bool.and_eq_false_iff]
      rcases Decidable.not_and_iff_or_not.mp hcon with h | h
      · exact Or.inl (by simpa using h)
      · exact Or.inr (by simpa using h)
    exact hrk hdead
  · intro r hrs hbad hmem
    rw [hval, List.mem_filter, decide_eq_true_eq] at hmem
    have hdead : r.1 ∈ deadKeys pathExists isSymlink store := by
      refine List.mem_map.mpr ⟨r, ?_, rfl⟩
      refine List.mem_filter.mpr ⟨hrs, ?_⟩
      simp only [rowLive, Bool.not_eq_eq_eq_not, Bool.not_true, Bool.and_eq_false_iff]
      rcases hbad with h | h
      · exact Or.inl h
      · exact Or.inr h
    exact hmem.2 hdead
  · intro r hrs hex hsym
    rw [hval, List.mem_filter, decide_eq_true_eq]
    refine ⟨hrs, ?_⟩
    intro hdead
    obtain ⟨q, hqmem, hqk⟩ := List.mem_map.mp hdead
    have hqs : q ∈ store := (List.mem_filter.mp hqmem).1
    have hqbad : rowLive pathExists isSymlink q = false := by
      have := (List.mem_filter.mp hqmem).2
      simpa using this
    have : q = r := List.inj_on_of_nodup_map hpk hqs hrs hqk
    rw [this] at hqbad
    simp [rowLive, hex, hsym] at hqbad

/-- Witness for `C9_validate_symlinks_selfheal`: a two-row store in which
the second row's link was deleted externally; the pass keeps the live row
and removes the dead one. -/
theorem C9_validate_symlinks_selfheal_witness :
    ((([("srcA", "linkA"), ("srcB", "linkB")] : Ledger).map Prod.fst).Nodup) ∧
      ((∀ r ∈ validate_symlinks (fun p => p == "linkA") (fun p => p == "linkA")
            [("srcA", "linkA"), ("srcB", "linkB")],
          (fun p => p == "linkA") r.2 = true ∧ (fun p => p == "linkA") r.2 = true) ∧
        (∀ r ∈ ([("srcA", "linkA"), ("srcB", "linkB")] : Ledger),
          ((fun p => p == "linkA") r.2 = false ∨ (fun p => p == "linkA") r.2 = false) →
            r ∉ validate_symlinks (fun p => p == "linkA") (fun p => p == "linkA")
              [("srcA", "linkA"), ("srcB", "linkB")]) ∧
        (∀ r ∈ ([("srcA", "linkA"), ("srcB", "linkB")] : Ledger),
          (fun p => p == "linkA") r.2 = true → (fun p => p == "linkA") r.2 = true →
            r ∈ validate_symlinks (fun p => p == "linkA") (fun p => p == "linkA")
              [("srcA", "linkA"), ("srcB", "linkB")])) :=
  ⟨by decide, C9_validate_symlinks_selfheal (fun p => p == "linkA") (fun p => p == "linkA")
    [("srcA", "linkA"), ("srcB", "linkB")] (by decide)⟩

/-! ## Metadata resolver: `Handler.get_tmdb_id` (rd-sym.py lines 321–341)

The external TMDb search is an oracle `String → Except Unit (List
Candidate)`; the Levenshtein similarity score of the external library is an
oracle returning rationals.  `sys.exit(1)` is modelled by the `exited`
result. -/

/-- The module-level fail-fast flag: `stop_on_error = True` (line 28). -/
def stop_on_error : Bool := true

/-- Result of one `get_tmdb_id` call: a TMDb id, the `"N/A"` sentinel, or
process termination through `sys.exit(1)`. -/
inductive TmdbResult where
  | found (id : Nat)
  | notFound
  | exited
deriving DecidableEq

/-- One candidate of the external search response, exposing `id` and the
display name compared against the queried title. -/
structure Candidate where
  id : Nat
  cname : String
deriving DecidableEq

/-- Python `max(results, key=...)`: scan left to right, replacing the
current best only on a strictly greater key, so the first maximal element
wins ties. -/
def maxByKey (key : Candidate → ℚ) : Candidate → List Candidate → Candidate
  | best, [] => best
  | best, x :: xs => maxByKey key (if key x > key best then x else best) xs

/-- The query sent to the search endpoint: `title.split("(")[0].strip()`. -/
def queryOf (title : String) : String :=
  String.mk (pyStrip (title.data.takeWhile (fun c => decide (c ≠ '('))))

/-- Model of the body of `Handler.get_tmdb_id` (without its cache): search
for the query, pick the candidate maximizing the similarity against the
full title, and degrade to `"N/A"` on an empty result or a raised error —
except that when `stopOnError` is set the process exits instead
(lines 334–335 and 339–340). -/
def get_tmdb_id_uncached (stopOnError : Bool) (similarity : String → String → ℚ)
    (search : String → Except Unit (List Candidate)) (title : String) : TmdbResult :=
  match search (queryOf title) with
  | Except.error _ => if stopOnError then .exited else .notFound
  | Except.ok [] => if stopOnError then .exited else .notFound
  | Except.ok (c :: cs) => .found (maxByKey (fun x => similarity x.cname title) c cs).id

/-! ## `functools.lru_cache` model -/

/-- Lookup in an LRU cache association list (most recently used first). -/
def lruLookup {κ ν : Type} [DecidableEq κ] : List (κ × ν) → κ → Option ν
  | [], _ => none
  | (k, v) :: rest, key => if k = key then some v else lruLookup rest key

/-- Model of one call through a `functools.lru_cache(maxsize)` wrapper: on
a hit the entry moves to the front and the wrapped function is not
invoked; on a miss the wrapped function is invoked, its result is inserted
in front, and the least recently used entry is evicted once the cache
exceeds `maxsize`.  The last component reports whether the wrapped
function was invoked. -/
def lruCall {κ ν : Type} [DecidableEq κ] (maxsize : Nat) (f : κ → ν)
    (cache : List (κ × ν)) (k : κ) : ν × List (κ × ν) × Bool :=
  match lruLookup cache k with
  | some v => (v, (k, v) :: cache.filter (fun p => decide (p.1 ≠ k)), false)
  | none => (f k, ((k, f k) :: cache).take maxsize, true)

/-- Run a sequence of cached calls, returning the final cache. -/
def lruRun {κ ν : Type} [DecidableEq κ] (maxsize : Nat) (f : κ → ν) :
    List κ → List (κ × ν) → List (κ × ν)
  | [], c => c
  | k :: ks, c => lruRun maxsize f ks (lruCall maxsize f c k).2.1

/-- Number of invocations of the wrapped function performed for `target`
over a sequence of cached calls. -/
def lruCalls {κ ν : Type} [DecidableEq κ] (maxsize : Nat) (f : κ → ν) (target : κ) :
    List κ → List (κ × ν) → Nat
  | [], _ => 0
  | k :: ks, c =>
    (if (lruCall maxsize f c k).2.2 && decide (k = target) then 1 else 0) +
      lruCalls maxsize f target ks (lruCall maxsize f c k).2.1

/-- Size of the `lru_cache(maxsize=1024)` wrapper on `get_tmdb_id` (line 321). -/
def get_tmdb_id_cache_maxsize : Nat := 1024

/-- The function cached by `get_tmdb_id`'s LRU wrapper, keyed by
`(title, is_movie)`: movie search for movie keys, tv search otherwise. -/
def resolverComputeF (stopOnError : Bool) (similarity : String → String → ℚ)
    (searchMovie searchTv : String → Except Unit (List Candidate)) :
    String × Bool → TmdbResult :=
  fun k => get_tmdb_id_uncached stopOnError similarity
    (if k.2 then searchMovie else searchTv) k.1

/-- Model of `Handler.get_tmdb_id` as exposed: the uncached body behind the
1024-entry per-process LRU cache. -/
def get_tmdb_id (stopOnError : Bool) (similarity : String → String → ℚ)
    (searchMovie searchTv : String → Except Unit (List Candidate))
    (cache : List ((String × Bool) × TmdbResult)) (title : String) (isMovie : Bool) :
    TmdbResult × List ((String × Bool) × TmdbResult) × Bool :=
  lruCall get_tmdb_id_cache_maxsize
    (resolverComputeF stopOnError similarity searchMovie searchTv) cache (title, isMovie)

/-! ## LRU cache lemmas -/

theorem lruLookup_eq_none {κ ν : Type} [DecidableEq κ] (c : List (κ × ν)) (k : κ)
    (h : k ∉ c.map Prod.fst) : lruLookup c k = none := by
  induction c with
  | nil => rfl
  | cons p rest ih =>
    simp only [List.map_cons, List.mem_cons, not_or] at h
    obtain ⟨h1, h2⟩ := h
    cases p with
    | mk a b =>
      simp only [lruLookup]
      rw [if_neg (fun he => h1 he.symm)]
      exact ih h2

theorem take_append_take {α : Type} (m : Nat) (xs ys : List α) :
    (xs ++ ys.take m).take m = (xs ++ ys).take m := by
  rw [List.take_append_eq_append_take, List.take_append_eq_append_take, List.take_take,
    Nat.min_eq_left (Nat.sub_le m xs.length)]

theorem lruRun_fresh_keys {κ ν : Type} [DecidableEq κ] (m : Nat) (f : κ → ν) :
    ∀ (ks : List κ) (c : List (κ × ν)), ks.Nodup → (∀ k ∈ ks, k ∉ c.map Prod.fst) →
      c.length ≤ m →
      (lruRun m f ks c).map Prod.fst = (ks.reverse ++ c.map Prod.fst).take m := by
  intro ks
  induction ks with
  | nil =>
    intro c _ _ hlen
    simp only [lruRun, List.reverse_nil, List.nil_append]
    rw [List.take_of_length_le (by simpa using hlen)]
  | cons k ks ih =>
    intro c hnd habs hlen
    have hk : k ∉ c.map Prod.fst := habs k (by simp)
    have hmiss : lruLookup c k = none := lruLookup_eq_none c k hk
    simp only [lruRun, lruCall, hmiss]
    have hkeys' : (((k, f k) :: c).take m).map Prod.fst = (k :: c.map Prod.fst).take m := by
      rw [List.map_take]
      simp
    have hlen' : (((k, f k) :: c).take m).length ≤ m := by
      rw [List.length_take]
      exact Nat.min_le_left _ _
    have habs' : ∀ k' ∈ ks, k' ∉ (((k, f k) :: c).take m).map Prod.fst := by
      intro k' hk' hmem
      rw [hkeys'] at hmem
      have hmem2 : k' ∈ k :: c.map Prod.fst := List.mem_of_mem_take hmem
      rcases List.mem_cons.mp hmem2 with h | h
      · exact (List.nodup_cons.mp hnd).1 (h ▸ hk')
      · exact habs k' (List.mem_cons_of_mem _ hk') h
    rw [ih _ (List.nodup_cons.mp hnd).2 habs' hlen', hkeys', take_append_take,
      List.reverse_cons, List.append_assoc, List.singleton_append]

theorem lruCalls_fresh {κ ν : Type} [DecidableEq κ] (m : Nat) (f : κ → ν) (target : κ) :
    ∀ (ks : List κ) (c : List (κ × ν)), ks.Nodup → (∀ k ∈ ks, k ∉ c.map Prod.fst) →
      lruCalls m f target ks c = if target ∈ ks then 1 else 0 := by
  intro ks
  induction ks with
  | nil => intro c _ _; simp [lruCalls]
  | cons k ks ih =>
    intro c hnd habs
    have hk : k ∉ c.map Prod.fst := habs k (by simp)
    have hmiss : lruLookup c k = none := lruLookup_eq_none c k hk
    simp only [lruCalls, lruCall, hmiss, Bool.true_and]
    have habs' : ∀ k' ∈ ks, k' ∉ ((((k, f k)) :: c).take m).map Prod.fst := by
      intro k' hk' hmem
      rw [List.map_take] at hmem
      simp only [List.map_cons] at hmem
      have hmem2 : k' ∈ k :: c.map Prod.fst := List.mem_of_mem_take hmem
      rcases List.mem_cons.mp hmem2 with h | h
      · exact (List.nodup_cons.mp hnd).1 (h ▸ hk')
      · exact habs k' (List.mem_cons_of_mem _ hk') h
    rw [ih _ (List.nodup_cons.mp hnd).2 habs']
    by_cases ht : k = target
    · have hnin : target ∉ ks := ht ▸ (List.nodup_cons.mp hnd).1
      simp [ht, hnin]
    · have ht2 : target ≠ k := fun h => ht h.symm
      simp [ht, ht2, List.mem_cons]

theorem lruCalls_append {κ ν : Type} [DecidableEq κ] (m : Nat) (f : κ → ν) (target : κ) :
    ∀ (xs ys : List κ) (c : List (κ × ν)),
      lruCalls m f target (xs ++ ys) c =
        lruCalls m f target xs c + lruCalls m f target ys (lruRun m f xs c) := by
  intro xs
  induction xs with
  | nil => intro ys c; simp [lruCalls, lruRun]
  | cons x xs ih =>
    intro ys c
    simp only [List.cons_append, lruCalls, lruRun, List.append_eq, ih, Nat.add_assoc]

/-! ## C4: resolver cache -/

/-- A list of 1025 pairwise distinct resolver keys: movie lookups for the titles
`""`, `"a"`, `"aa"`, …, enough to overflow the 1024-entry cache. -/
def manyTitleKeys : List (String × Bool) :=
  (List.range 1025).map (fun i => (String.mk (List.replicate i 'a'), true))

/-- An external search oracle that always finds one candidate. -/
def constSearch : String → Except Unit (List Candidate) :=
  fun q => Except.ok [⟨7, q⟩]

theorem manyTitleKeys_nodup : manyTitleKeys.Nodup := by
  refine List.Nodup.map ?_ (List.nodup_range 1025)
  intro i j hij
  simp only [Prod.mk.injEq, and_true] at hij
  have hd := congrArg String.data hij
  simp only [String.data] at hd
  have := congrArg List.length hd
  simpa using this

theorem manyTitleKeys_head_mem : (("", true) : String × Bool) ∈ manyTitleKeys := by
  refine List.mem_map.mpr ⟨0, ?_, rfl⟩
  simp

theorem manyTitleKeys_eq_cons :
    manyTitleKeys =
      ((fun i => ((String.mk (List.replicate i 'a'), true) : String × Bool)) 0) ::
        (List.range 1024).map
          ((fun i => ((String.mk (List.replicate i 'a'), true) : String × Bool)) ∘ Nat.succ) := by
  rw [manyTitleKeys, List.range_succ_eq_map, List.map_cons, List.map_map]

theorem target_not_in_overflow_cache (f : String × Bool → TmdbResult) :
    (("", true) : String × Bool) ∉
      (lruRun get_tmdb_id_cache_maxsize f manyTitleKeys
        ([] : List ((String × Bool) × TmdbResult))).map Prod.fst := by
  rw [lruRun_fresh_keys get_tmdb_id_cache_maxsize f manyTitleKeys []
    manyTitleKeys_nodup (by simp) (Nat.zero_le _)]
  rw [manyTitleKeys_eq_cons, List.reverse_cons, List.map_nil, List.append_nil]
  rw [List.take_left' (by simp [get_tmdb_id_cache_maxsize])]
  intro hmem
  rw [List.mem_reverse] at hmem
  obtain ⟨i, _, hi⟩ := List.mem_map.mp hmem
  have hd := congrArg String.data (congrArg Prod.fst hi)
  simp only [String.data] at hd
  have := congrArg List.length hd
  simp at this

theorem lruCalls_single_miss {κ ν : Type} [DecidableEq κ] (m : Nat) (f : κ → ν) (k : κ)
    (c : List (κ × ν)) (h : lruLookup c k = none) :
    lruCalls m f k [k] c = 1 := by
  simp [lruCalls, lruCall, h]

/-- C4 counterexample: resolving 1025 distinct `(title, movie)` keys and
then the first key again makes the resolver issue **two** external search
calls for that first key — the 1024-entry LRU cache evicted it — so the
claim that at most one external search call is issued per key and that
cache entries never expire within the process lifetime is false. -/
theorem C4_counterexample :
    lruCalls get_tmdb_id_cache_maxsize
      (resolverComputeF stop_on_error (fun _ _ => 0) constSearch constSearch)
      (("", true) : String × Bool)
      (manyTitleKeys ++ [("", true)])
      ([] : List ((String × Bool) × TmdbResult)) = 2 := by
  rw [lruCalls_append]
  rw [lruCalls_fresh _ _ _ manyTitleKeys [] manyTitleKeys_nodup (by simp)]
  rw [if_pos manyTitleKeys_head_mem]
  rw [lruCalls_single_miss _ _ _ _
    (lruLookup_eq_none _ _ (target_not_in_overflow_cache _))]

/-- C4 (amended): the resolver cache is a 1024-entry LRU
(`functools.lru_cache(maxsize=1024)`).  While a `(title, kind)` entry
remains cached, every `get_tmdb_id` invocation for that key is served from
the cache — the cached result (including a cached `"N/A"`) is returned and
no external search call is issued.  Entries can however be evicted once
more than 1024 distinct keys have been resolved, after which a fresh
external call is issued for an evicted key, so neither "at most one
external call per key" nor "entries never expire" holds over a whole
process lifetime. -/
theorem C4_amended_cache_hit (stopOnError : Bool) (similarity : String → String → ℚ)
    (searchMovie searchTv : String → Except Unit (List Candidate))
    (cache : List ((String × Bool) × TmdbResult)) (title : String) (isMovie : Bool)
    (v : TmdbResult) (h : lruLookup cache (title, isMovie) = some v) :
    (get_tmdb_id stopOnError similarity searchMovie searchTv cache title isMovie).1 = v ∧
      (get_tmdb_id stopOnError similarity searchMovie searchTv cache title isMovie).2.2 =
        false := by
  simp [get_tmdb_id, lruCall, h]

/-- Witness for `C4_amended_cache_hit`: a cached `N/A` entry is served
without an external call. -/
theorem C4_amended_cache_hit_witness :
    lruLookup [(("some show", false), TmdbResult.notFound)] ("some show", false) =
        some TmdbResult.notFound ∧
      ((get_tmdb_id true (fun _ _ => 0) constSearch constSearch
          [(("some show", false), TmdbResult.notFound)] "some show" false).1 =
            TmdbResult.notFound ∧
        (get_tmdb_id true (fun _ _ => 0) constSearch constSearch
          [(("some show", false), TmdbResult.notFound)] "some show" false).2.2 = false) :=
  ⟨rfl, C4_amended_cache_hit true (fun _ _ => 0) constSearch constSearch
    [(("some show", false), TmdbResult.notFound)] "some show" false TmdbResult.notFound rfl⟩

/-! ## C5: lookup-failure degradation -/

/-- C5 counterexample: with the source's module-level `stop_on_error =
True` (line 28), a raised search error makes `get_tmdb_id` call
`sys.exit(1)` — the process terminates instead of returning the `"N/A"`
sentinel, so the claim that a network or service error never terminates
the process is false. -/
theorem C5_counterexample :
    (get_tmdb_id stop_on_error (fun _ _ => 0) (fun _ => Except.error ())
        (fun _ => Except.error ()) [] "The Matrix" true).1 = TmdbResult.exited := by
  rfl

/-- C5 (amended): a raised network or service error degrades the call to
the `"N/A"` sentinel without terminating the process **only when the
fail-fast flag is disabled**; with the shipped `stop_on_error = True` the
process exits with status 1 instead (lines 339–340). -/
theorem C5_amended_error_degrades (similarity : String → String → ℚ)
    (search : String → Except Unit (List Candidate)) (title : String)
    (h : search (queryOf title) = Except.error ()) :
    get_tmdb_id_uncached false similarity search title = TmdbResult.notFound := by
  simp [get_tmdb_id_uncached, h]

/-- Witness for `C5_amended_error_degrades` at a concrete failing search. -/
theorem C5_amended_error_degrades_witness :
    (fun _ : String => (Except.error () : Except Unit (List Candidate))) (queryOf "The Matrix") =
        Except.error () ∧
      get_tmdb_id_uncached false (fun _ _ => 0)
        (fun _ => Except.error ()) "The Matrix" = TmdbResult.notFound :=
  ⟨rfl, C5_amended_error_degrades (fun _ _ => 0) (fun _ => Except.error ()) "The Matrix" rfl⟩

/-! ## Python string helpers used by the naming policy -/

/-- Worker for `pyTitle`; the flag records whether the previous character
was a letter. -/
def pyTitleGo : Bool → List Char → List Char
  | _, [] => []
  | prevAlpha, ch :: rest =>
    if ch.isAlpha then
      (if prevAlpha then ch.toLower else ch.toUpper) :: pyTitleGo true rest
    else ch :: pyTitleGo false rest

/-- Model of Python `str.title()`: a letter preceded by a non-letter is
uppercased, any other letter is lowercased, other characters are kept
(ASCII view of Python's cased-character rule). -/
def pyTitle (s : List Char) : List Char := pyTitleGo false s

/-- Worker for `titlecase`; the flag records whether the next character
starts a word. -/
def titlecaseGo : Bool → List Char → List Char
  | _, [] => []
  | atStart, ch :: rest =>
    if ch = ' ' then ch :: titlecaseGo true rest
    else (if atStart then ch.toUpper else ch) :: titlecaseGo false rest

/-- Modelled from the external `titlecase` library as exercised by this
repository's parsed titles: the first letter of each space-separated word
is uppercased and every other character is kept. -/
def titlecase (s : String) : String :=
  String.mk (titlecaseGo true s.data)

/-- Python `f"{n:02d}"`: decimal rendering zero-padded to width two. -/
def pad2 (n : Nat) : String := if n < 10 then "0" ++ toString n else toString n

/-- Worker scanning for the first `\((\d{4})\)` match; returns the four
digit characters of the group. -/
def findParenYearGo : List Char → Option (List Char)
  | '(' :: a :: b :: c :: d :: ')' :: rest =>
    if a.isDigit && b.isDigit && c.isDigit && d.isDigit then some [a, b, c, d]
    else findParenYearGo (a :: b :: c :: d :: ')' :: rest)
  | _ :: rest => findParenYearGo rest
  | [] => none

/-- Model of `re.search(r"\((\d{4})\)", s)` returning `group(1)` (the four
digits of the first parenthesized four-digit group), as used at lines
454–455. -/
def findParenYear (s : String) : Option String :=
  (findParenYearGo s.data).map String.mk

/-- Model of `re.sub(r"[()]", "", s)`: drop all parenthesis characters. -/
def removeParens (s : List Char) : List Char :=
  s.filter (fun c => !(c == '(' || c == ')'))

/-- Model of the inner `normalize_dir_name` of `Handler.process_series`
(lines 479–484): the first parenthesized four-digit year (with its parens,
`group(0)`) is remembered, all parenthesis characters are removed, the
result is passed through `str.title()`, and the year part is appended. -/
def normalize_dir_name (name : String) : String :=
  let yearPart : List Char :=
    match findParenYearGo name.data with
    | some ds => '(' :: (ds ++ [')'])
    | none => []
  String.mk (pyTitle (removeParens name.data) ++ yearPart)

/-! ## `Handler.clean_directory_name` (lines 300–308)

The fallback normalizer applied to a directory name when the parsed title
is missing.  Each of its eleven case-insensitive `re.sub` patterns is
modelled by a dedicated character-list function, applied in source
order. -/

/-- Case-insensitive character comparison. -/
def lowerEq (a b : Char) : Bool := a.toLower == b.toLower

/-- Case-insensitive prefix test. -/
def isPrefixCI : List Char → List Char → Bool
  | [], _ => true
  | _ :: _, [] => false
  | a :: w, b :: s => lowerEq a b && isPrefixCI w s

/-- Model of `re.sub(r"S\d{1,2}.*", "", s, IGNORECASE)`: truncate at the
first `S`/`s` that is followed by a digit. -/
def truncAtSDigit : List Char → List Char
  | [] => []
  | c :: rest =>
    if (c == 'S' || c == 's') && (match rest with | d :: _ => d.isDigit | [] => false) then []
    else c :: truncAtSDigit rest

/-- Model of `re.sub(r"\.\.\..*", "", s)`: truncate at the first `...`. -/
def truncAtEllipsis : List Char → List Char
  | [] => []
  | c :: rest =>
    if c == '.' && isPrefixCh ['.', '.'] rest then [] else c :: truncAtEllipsis rest

/-- Fueled worker for `removeAllCI`. -/
def removeAllCIGo (w : List Char) : Nat → List Char → List Char
  | 0, s => s
  | _ + 1, [] => []
  | fuel + 1, c :: rest =>
    if isPrefixCI w (c :: rest) then removeAllCIGo w fuel (List.drop (w.length - 1) rest)
    else c :: removeAllCIGo w fuel rest

/-- Model of `re.sub(w, "", s, IGNORECASE)` for a literal nonempty `w`:
remove every (non-overlapping, leftmost-first) case-insensitive
occurrence. -/
def removeAllCI (w : List Char) (s : List Char) : List Char :=
  removeAllCIGo w s.length s

/-- Model of `re.sub(r"\(.*\)", "", s)`: greedily delete from the first
`(` through the last `)` after it, when both exist. -/
def removeGreedyParen (s : List Char) : List Char :=
  let pre := s.takeWhile (fun c => decide (c ≠ '('))
  match s.drop pre.length with
  | [] => s
  | _ :: tail =>
    if tail.contains ')' then
      pre ++ (tail.reverse.takeWhile (fun c => decide (c ≠ ')'))).reverse
    else s

/-- Position after the first occurrence of `cl`, when present. -/
def afterCloseCh (cl : Char) : List Char → Option (List Char)
  | [] => none
  | c :: rest => if c = cl then some rest else afterCloseCh cl rest

/-- Fueled worker for `removeLazyDelim`. -/
def removeLazyDelimGo (op cl : Char) : Nat → List Char → List Char
  | 0, s => s
  | _ + 1, [] => []
  | fuel + 1, c :: rest =>
    if c = op then
      match afterCloseCh cl rest with
      | some r => removeLazyDelimGo op cl fuel r
      | none => c :: rest
    else c :: removeLazyDelimGo op cl fuel rest

/-- Model of `re.sub(op + ".*?" + cl, "", s)` with lazily matched
delimiters, as in the `\[.*?\]` and `\{.*?\}` patterns. -/
def removeLazyDelim (op cl : Char) (s : List Char) : List Char :=
  removeLazyDelimGo op cl s.length s

/-- Fueled worker for `removeDashSquare`. -/
def removeDashSquareGo : Nat → List Char → List Char
  | 0, s => s
  | _ + 1, [] => []
  | fuel + 1, c :: rest =>
    if c = '-' then
      match rest with
      | '[' :: rest2 =>
        match afterCloseCh ']' rest2 with
        | some r => removeDashSquareGo fuel r
        | none => c :: rest
      | _ => c :: removeDashSquareGo fuel rest
    else c :: removeDashSquareGo fuel rest

/-- Model of `re.sub(r"-\[.*?\]", "", s)`. -/
def removeDashSquare (s : List Char) : List Char :=
  removeDashSquareGo s.length s

/-- The opening curly brace character. -/
def curlyOpen : Char := Char.ofNat 123

/-- The closing curly brace character. -/
def curlyClose : Char := Char.ofNat 125

/-- Model of `Handler.clean_directory_name` (lines 300–308): the eleven
removal patterns in source order, then `strip()`. -/
def clean_directory_name (name : String) : String :=
  let s1 := truncAtSDigit name.data
  let s2 := truncAtEllipsis s1
  let s3 := removeAllCI "(None)".data s2
  let s4 := removeGreedyParen s3
  let s5 := removeAllCI "-RARBG".data s4
  let s6 := removeDashSquare s5
  let s7 := removeLazyDelim '[' ']' s6
  let s8 := removeLazyDelim curlyOpen curlyClose s7
  let s9 := s8.filter (fun c => !c.isWhitespace)
  let s10 := (s9.filter (fun c => decide (c ≠ '_'))).filter (fun c => decide (c ≠ '-'))
  String.mk (pyStrip s10)

/-! ## Data of one processing call -/

/-- A `guessit` season/episode value: a single number or an ambiguous
multi-part list (lines 470–473). -/
inductive SEValue where
  | single (n : Nat)
  | multi (l : List Nat)
deriving DecidableEq

/-- Python truthiness of an optional season/episode value: `None`, `0` and
`[]` are falsy. -/
def seTruthy : Option SEValue → Bool
  | none => false
  | some (.single n) => decide (n ≠ 0)
  | some (.multi l) => decide (l ≠ [])

/-- The list-to-first-element reduction of lines 470–473 (the `multi []`
case is unreachable past the truthiness check and maps to `0`). -/
def seFirst : SEValue → Nat
  | .single n => n
  | .multi [] => 0
  | .multi (n :: _) => n

/-- The parsed-descriptor fields consumed by the processors (`file_info`).
`ftype` is the descriptor's `type` entry. -/
structure FileInfo where
  title : Option String
  series : Option String
  year : Option Nat
  season : Option SEValue
  episode : Option SEValue
  ftype : Option String
deriving DecidableEq

/-- The source-file attributes consumed by the processors. -/
structure SrcFile where
  path : String
  parentName : String
  suffix : String
deriving DecidableEq

/-- Filesystem and ledger side effects, in execution order. -/
inductive Action where
  | mkdir (dir : String)
  | mklink (link target : String)
  | putRecord (src link : String)
deriving DecidableEq

/-- How one processing call ended. -/
inductive ProcOutcome where
  | raisedError
  | skippedExisting (link : String)
  | skippedMissingInfo
  | exitedMissingInfo
  | skippedNonEmptyDir (dir : String)
  | skippedMovieType
  | skippedSimilarSeasonFile
  | disambigFuelExhausted
  | linkFailedContinue
  | linkFailedExit
  | linked (link : String)
deriving DecidableEq

/-- The result of one processing call: performed side effects in order,
the ledger afterwards, and the outcome. -/
structure ProcResult where
  actions : List Action
  ledger : Ledger
  outcome : ProcOutcome
deriving DecidableEq

/-! ## `Handler.process_movie` (lines 391–435) -/

/-- The hard-wired recent-year override of line 409: releases whose year
equals the processing epoch's year, `2024`, bypass genre bucketing. -/
def processingEpochYear : Nat := 2024

/-- The bucket directory literal `'2024'` of line 410. -/
def recentYearBucketName : String := "2024"

/-- External collaborators and filesystem state consulted by
`process_movie`: the movies target root, the fail-fast flag, the
`is_symlink` probe, the genre list returned by
`get_tmdb_movie_genres(tmdb_id)`, the non-empty-directory probe of line
418, and whether `symlink_to` succeeds. -/
structure MovieEnv where
  moviesTarget : String
  stopOnError : Bool
  isSymlink : String → Bool
  genres : List String
  dirNonEmpty : String → Bool
  symlinkOk : Bool

/-- The ledger short-circuit test of lines 397–400 and 459–462: the
recorded link path, when one exists and is a live symlink. -/
def ledgerHit (isSymlink : String → Bool) (ledger : Ledger) (path : String) : Option String :=
  match get_symlink ledger path with
  | some link => if isSymlink link then some link else none
  | none => none

/-- The movie target directory of lines 407–416: genre bucketing with the
`'2024'` recent-year override and the `Title (Year) {tmdb-id}` directory
name (the id fragment is empty for `"N/A"`, leaving bare braces). -/
def movieDirFor (env : MovieEnv) (title : String) (year : Nat) (tmdbId : String) : String :=
  let fid := if tmdbId ≠ "N/A" then "tmdb-" ++ tmdbId else ""
  let dirName := title ++ " (" ++ toString year ++ ") " ++ "\x7b" ++ fid ++ "\x7d"
  let bucket :=
    if year = processingEpochYear then recentYearBucketName
    else
      match env.genres with
      | g :: _ => g
      | [] => "Uncategorized"
  env.moviesTarget ++ "/" ++ bucket ++ "/" ++ dirName

/-- Model of `Handler.process_movie`: ledger short-circuit, missing-info
skip, genre/year bucketing, directory naming with the `tmdb-` fragment,
non-empty-directory skip, link creation and ledger write.  A missing title
makes `titlecase(None)` raise (caught by `process`), modelled as
`raisedError`. -/
def process_movie (env : MovieEnv) (ledger : Ledger) (src : SrcFile)
    (info : FileInfo) (tmdbId : String) : ProcResult :=
  match info.title with
  | none => ⟨[], ledger, .raisedError⟩
  | some t0 =>
    let title := titlecase t0
    match ledgerHit env.isSymlink ledger src.path with
    | some link => ⟨[], ledger, .skippedExisting link⟩
    | none =>
      if title = "" ∨ info.year = none ∨ info.year = some 0 then
        ⟨[], ledger, .skippedMissingInfo⟩
      else
        let movieDir := movieDirFor env title ((info.year).getD 0) tmdbId
        if env.dirNonEmpty movieDir then ⟨[], ledger, .skippedNonEmptyDir movieDir⟩
        else
          let link := movieDir ++ "/" ++ title ++ src.suffix
          if env.symlinkOk then
            ⟨[.mkdir movieDir, .mklink link src.path, .putRecord src.path link],
              add_symlink ledger src.path link, .linked link⟩
          else
            ⟨[.mkdir movieDir], ledger,
              if env.stopOnError then .linkFailedExit else .linkFailedContinue⟩

/-! ## `Handler.process_series` (lines 437–534) -/

/-- External collaborators and filesystem state consulted by
`process_series`: the series target root, the fail-fast flag, the
`is_symlink` probe, the directory names under the series root, the
results of `get_tmdb_episode_title` and `get_tmdb_series_title_and_year`,
the file names in the season directory at the similarity check, and
whether `symlink_to` succeeds. -/
structure SeriesEnv where
  seriesTarget : String
  stopOnError : Bool
  isSymlink : String → Bool
  seriesRootDirs : List String
  episodeTitleResult : Option String
  tmdbSeriesTitle : Option String
  tmdbSeriesYear : Option String
  seasonFiles : List String
  symlinkOk : Bool

/-- The candidate of the collision loop (lines 490–496): the bare title
for `counter = 1`, `f"{series_title} ({year}) ({counter})"` afterwards —
a missing year renders as `None`. -/
def disambigCandidate (title : String) (year : Option String) (counter : Nat) : String :=
  if counter > 1 then
    title ++ " (" ++ (match year with | some y => y | none => "None") ++ ") (" ++
      toString counter ++ ")"
  else title

/-- The collision loop of lines 490–496: increment `counter` until the
candidate's normalization differs from every normalized matching
directory name.  The fuel bound only makes the recursion structural;
`matches.length + 2` steps always suffice. -/
def disambigLoop (title : String) (year : Option String) (norms : List String) :
    Nat → Nat → Option String
  | _, 0 => none
  | counter, fuel + 1 =>
    if normalize_dir_name (disambigCandidate title year counter) ∈ norms then
      disambigLoop title year norms (counter + 1) fuel
    else some (disambigCandidate title year counter)

/-- The matching directories of line 488: existing series-root directories
whose normalized name equals the normalized series title. -/
def seriesDirMatches (env : SeriesEnv) (seriesTitle : String) : List String :=
  env.seriesRootDirs.filter
    (fun d => decide (normalize_dir_name d = normalize_dir_name seriesTitle))

/-- The series directory-name selection of lines 488–513: when some
existing directory matches the normalized title, run the collision loop
(never reusing the matching directory); otherwise build a canonical name,
with the TMDb-supplied title/year and the `tmdb-` fragment when the id is
known (empty-string TMDb answers are falsy and fall back to the parsed
values). -/
def seriesDirSelect (env : SeriesEnv) (seriesTitle : String) (year : Option String)
    (tmdbId : String) : Option String :=
  let dirMatches := seriesDirMatches env seriesTitle
  if dirMatches = [] then
    some (
      if tmdbId ≠ "N/A" then
        let ctitle :=
          match env.tmdbSeriesTitle with
          | some t => if t = "" then seriesTitle else t
          | none => seriesTitle
        let cyear : Option String :=
          match env.tmdbSeriesYear with
          | some yy => if yy = "" then year else some yy
          | none => year
        match cyear with
        | some yy =>
          if yy = "" then ctitle ++ " " ++ "\x7btmdb-" ++ tmdbId ++ "\x7d"
          else ctitle ++ " (" ++ yy ++ ") " ++ "\x7btmdb-" ++ tmdbId ++ "\x7d"
        | none => ctitle ++ " " ++ "\x7btmdb-" ++ tmdbId ++ "\x7d"
      else
        match year with
        | some yy => if yy = "" then seriesTitle else seriesTitle ++ " (" ++ yy ++ ")"
        | none => seriesTitle)
  else
    disambigLoop seriesTitle year (dirMatches.map normalize_dir_name) 1
      (dirMatches.length + 2)

/-- Model of `Handler.process_series`: movie-type skip, directory-name
fallback for a missing title, year extraction, ledger short-circuit,
missing-info handling, episode-title fallback to `"Unknown Title"`,
normalized matching against existing series directories, collision-loop
disambiguation or canonical naming, season folder creation, similar-file
skip, link creation and ledger write. -/
def process_series (env : SeriesEnv) (ledger : Ledger) (src : SrcFile)
    (info : FileInfo) (tmdbId : String) : ProcResult :=
  match info.title <|> info.series with
  | none => ⟨[], ledger, .raisedError⟩
  | some t0 =>
    let st1 := titlecase t0
    if info.ftype = some "movie" then ⟨[], ledger, .skippedMovieType⟩
    else
      let seriesTitle := if st1 = "" then clean_directory_name src.parentName else st1
      let year : Option String := findParenYear seriesTitle
      match ledgerHit env.isSymlink ledger src.path with
      | some link => ⟨[], ledger, .skippedExisting link⟩
      | none =>
        if seriesTitle = "" ∨ seTruthy info.season = false ∨ seTruthy info.episode = false then
          ⟨[], ledger, if env.stopOnError then .exitedMissingInfo else .skippedMissingInfo⟩
        else
          let s := seFirst ((info.season).getD (.single 0))
          let e := seFirst ((info.episode).getD (.single 0))
          let epTitle :=
            match env.episodeTitleResult with
            | some t => if t = "" then "Unknown Title" else t
            | none => "Unknown Title"
          let fileName := seriesTitle ++ " - s" ++ pad2 s ++ "e" ++ pad2 e ++ " - " ++
            epTitle ++ src.suffix
          match seriesDirSelect env seriesTitle year tmdbId with
          | none => ⟨[], ledger, .disambigFuelExhausted⟩
          | some dirName =>
            let seriesDir := env.seriesTarget ++ "/" ++ dirName
            let seasonDir := seriesDir ++ "/Season " ++ pad2 s
            let similar := env.seasonFiles.filter
              (fun f => decide (normalize_dir_name f = normalize_dir_name fileName))
            if similar = [] then
              let link := seasonDir ++ "/" ++ fileName
              if env.symlinkOk then
                ⟨[.mkdir seriesDir, .mkdir seasonDir, .mklink link src.path,
                    .putRecord src.path link],
                  add_symlink ledger src.path link, .linked link⟩
              else
                ⟨[.mkdir seriesDir, .mkdir seasonDir], ledger,
                  if env.stopOnError then .linkFailedExit else .linkFailedContinue⟩
            else
              ⟨[.mkdir seriesDir, .mkdir seasonDir], ledger, .skippedSimilarSeasonFile⟩

/-! ## C1: idempotence of per-file processing -/

/-- C1: when a ledger record exists for the source path and its recorded
link path is a live symlink, a second processing run is a no-op for both
pipelines: no action (no directory, no symlink, no ledger write) is
performed, the ledger is unchanged, and the single existing record for the
source stays the only one. -/
theorem C1_second_run_noop (menv : MovieEnv) (senv : SeriesEnv)
    (mledger sledger : Ledger) (msrc ssrc : SrcFile) (minfo sinfo : FileInfo)
    (mid sid : String) (mlink slink mt t0 : String)
    (hmt : minfo.title = some mt)
    (hm : get_symlink mledger msrc.path = some mlink)
    (hml : menv.isSymlink mlink = true)
    (ht : (sinfo.title <|> sinfo.series) = some t0)
    (hty : sinfo.ftype ≠ some "movie")
    (hs : get_symlink sledger ssrc.path = some slink)
    (hsl : senv.isSymlink slink = true)
    (hmc : countRecords mledger msrc.path = 1)
    (hsc : countRecords sledger ssrc.path = 1) :
    process_movie menv mledger msrc minfo mid =
        ⟨[], mledger, .skippedExisting mlink⟩ ∧
      process_series senv sledger ssrc sinfo sid =
        ⟨[], sledger, .skippedExisting slink⟩ ∧
      countRecords (process_movie menv mledger msrc minfo mid).ledger msrc.path = 1 ∧
      countRecords (process_series senv sledger ssrc sinfo sid).ledger ssrc.path = 1 := by
  have h1 : process_movie menv mledger msrc minfo mid =
      ⟨[], mledger, .skippedExisting mlink⟩ := by
    simp [process_movie, ledgerHit, hmt, hm, hml]
  have h2 : process_series senv sledger ssrc sinfo sid =
      ⟨[], sledger, .skippedExisting slink⟩ := by
    simp [process_series, ledgerHit, ht, hty, hs, hsl]
  refine ⟨h1, h2, ?_, ?_⟩
  · rw [h1]; exact hmc
  · rw [h2]; exact hsc

/-- Witness for `C1_second_run_noop`: a movie and an episode whose sources
are already ledgered with live links. -/
theorem C1_second_run_noop_witness :
    ((⟨some "Some Movie", none, some 2021, none, none, some "movie"⟩ : FileInfo).title =
        some "Some Movie") ∧
      get_symlink [("/w/a.mkv", "/m/d/f.mkv")] (SrcFile.mk "/w/a.mkv" "w" ".mkv").path =
        some "/m/d/f.mkv" ∧
      (MovieEnv.mk "/m" true (fun p => p == "/m/d/f.mkv") ["Action"] (fun _ => false)
          true).isSymlink "/m/d/f.mkv" = true ∧
      process_movie
          (MovieEnv.mk "/m" true (fun p => p == "/m/d/f.mkv") ["Action"] (fun _ => false) true)
          [("/w/a.mkv", "/m/d/f.mkv")] (SrcFile.mk "/w/a.mkv" "w" ".mkv")
          (⟨some "Some Movie", none, some 2021, none, none, some "movie"⟩ : FileInfo)
          "12345" =
        ⟨[], [("/w/a.mkv", "/m/d/f.mkv")], .skippedExisting "/m/d/f.mkv"⟩ ∧
      process_series
          (SeriesEnv.mk "/t" true (fun p => p == "/t/S/s.mkv") [] none none none [] true)
          [("/w/b.mkv", "/t/S/s.mkv")] (SrcFile.mk "/w/b.mkv" "w" ".mkv")
          (⟨some "show", none, none, some (.single 1), some (.single 2),
            some "episode"⟩ : FileInfo) "N/A" =
        ⟨[], [("/w/b.mkv", "/t/S/s.mkv")], .skippedExisting "/t/S/s.mkv"⟩ := by
  have h := C1_second_run_noop
    (MovieEnv.mk "/m" true (fun p => p == "/m/d/f.mkv") ["Action"] (fun _ => false) true)
    (SeriesEnv.mk "/t" true (fun p => p == "/t/S/s.mkv") [] none none none [] true)
    [("/w/a.mkv", "/m/d/f.mkv")] [("/w/b.mkv", "/t/S/s.mkv")]
    (SrcFile.mk "/w/a.mkv" "w" ".mkv") (SrcFile.mk "/w/b.mkv" "w" ".mkv")
    (⟨some "Some Movie", none, some 2021, none, none, some "movie"⟩ : FileInfo)
    (⟨some "show", none, none, some (.single 1), some (.single 2), some "episode"⟩ : FileInfo)
    "12345" "N/A" "/m/d/f.mkv" "/t/S/s.mkv" "Some Movie" "show"
    rfl rfl (by decide) rfl (by decide) rfl (by decide) (by decide) (by decide)
  exact ⟨rfl, rfl, by decide, h.1, h.2.1⟩

/-! ## C10: series pipeline skips movie-typed descriptors -/

/-- C10: a file routed to the series pipeline whose parsed descriptor has
type `movie` is skipped before any directory, symlink or ledger write: the
result carries no action and leaves the ledger unchanged. -/
theorem C10_series_movie_type_skip (env : SeriesEnv) (ledger : Ledger) (src : SrcFile)
    (info : FileInfo) (tmdbId : String) (t0 : String)
    (ht : (info.title <|> info.series) = some t0)
    (hty : info.ftype = some "movie") :
    process_series env ledger src info tmdbId = ⟨[], ledger, .skippedMovieType⟩ := by
  simp [process_series, ht, hty]

/-- Witness for `C10_series_movie_type_skip`. -/
theorem C10_series_movie_type_skip_witness :
    ((⟨some "Some Movie", none, some 2021, none, none, some "movie"⟩ : FileInfo).title <|>
        (⟨some "Some Movie", none, some 2021, none, none, some "movie"⟩ : FileInfo).series) =
        some "Some Movie" ∧
      (⟨some "Some Movie", none, some 2021, none, none, some "movie"⟩ : FileInfo).ftype =
        some "movie" ∧
      process_series (SeriesEnv.mk "/t" true (fun _ => false) [] none none none [] true)
          [] (SrcFile.mk "/w/m.mkv" "w" ".mkv")
          (⟨some "Some Movie", none, some 2021, none, none, some "movie"⟩ : FileInfo)
          "12345" =
        ⟨[], [], .skippedMovieType⟩ :=
  ⟨rfl, rfl, C10_series_movie_type_skip
    (SeriesEnv.mk "/t" true (fun _ => false) [] none none none [] true) []
    (SrcFile.mk "/w/m.mkv" "w" ".mkv")
    (⟨some "Some Movie", none, some 2021, none, none, some "movie"⟩ : FileInfo)
    "12345" "Some Movie" rfl rfl⟩

/-! ## C8: link-creation failure leaves the ledger unchanged -/

theorem process_movie_linkfail (env : MovieEnv) (ledger : Ledger) (src : SrcFile)
    (info : FileInfo) (tmdbId : String) (h : env.symlinkOk = false) :
    (process_movie env ledger src info tmdbId).ledger = ledger ∧
      ∀ a ∈ (process_movie env ledger src info tmdbId).actions, ∀ k v,
        a ≠ Action.putRecord k v := by
  unfold process_movie
  dsimp only
  repeat'
    first
      | split
      | exact ⟨rfl, by simp⟩
      | simp_all

set_option maxHeartbeats 1000000 in
theorem process_series_linkfail (env : SeriesEnv) (ledger : Ledger) (src : SrcFile)
    (info : FileInfo) (tmdbId : String) (h : env.symlinkOk = false) :
    (process_series env ledger src info tmdbId).ledger = ledger ∧
      ∀ a ∈ (process_series env ledger src info tmdbId).actions, ∀ k v,
        a ≠ Action.putRecord k v := by
  unfold process_series
  dsimp only
  repeat'
    first
      | split
      | exact ⟨rfl, by simp⟩
      | simp_all

/-- C8: when creating the symbolic link fails with an `OSError`
(`symlinkOk = false`), neither pipeline performs a ledger write: the
ledger is unchanged and no `putRecord` effect is emitted, so the source
path stays eligible for retry on the next scan or event. -/
theorem C8_link_failure_no_ledger_write (menv : MovieEnv) (senv : SeriesEnv)
    (mledger sledger : Ledger) (msrc ssrc : SrcFile) (minfo sinfo : FileInfo)
    (mid sid : String)
    (hm : menv.symlinkOk = false) (hs : senv.symlinkOk = false) :
    ((process_movie menv mledger msrc minfo mid).ledger = mledger ∧
      ∀ a ∈ (process_movie menv mledger msrc minfo mid).actions, ∀ k v,
        a ≠ Action.putRecord k v) ∧
    ((process_series senv sledger ssrc sinfo sid).ledger = sledger ∧
      ∀ a ∈ (process_series senv sledger ssrc sinfo sid).actions, ∀ k v,
        a ≠ Action.putRecord k v) :=
  ⟨process_movie_linkfail menv mledger msrc minfo mid hm,
    process_series_linkfail senv sledger ssrc sinfo sid hs⟩

/-- Witness for `C8_link_failure_no_ledger_write`: inputs that reach the
link-creation attempt with a failing `symlink_to`. -/
theorem C8_link_failure_no_ledger_write_witness :
    (MovieEnv.mk "/m" false (fun _ => false) ["Action"] (fun _ => false)
        false).symlinkOk = false ∧
      (SeriesEnv.mk "/t" false (fun _ => false) [] none none none [] false).symlinkOk =
        false ∧
      (((process_movie
            (MovieEnv.mk "/m" false (fun _ => false) ["Action"] (fun _ => false) false)
            [] (SrcFile.mk "/w/a.mkv" "w" ".mkv")
            (⟨some "Some Movie", none, some 2021, none, none, some "movie"⟩ : FileInfo)
            "12345").ledger = [] ∧
          ∀ a ∈ (process_movie
            (MovieEnv.mk "/m" false (fun _ => false) ["Action"] (fun _ => false) false)
            [] (SrcFile.mk "/w/a.mkv" "w" ".mkv")
            (⟨some "Some Movie", none, some 2021, none, none, some "movie"⟩ : FileInfo)
            "12345").actions, ∀ k v, a ≠ Action.putRecord k v) ∧
        ((process_series
            (SeriesEnv.mk "/t" false (fun _ => false) [] none none none [] false)
            [] (SrcFile.mk "/w/b.mkv" "w" ".mkv")
            (⟨some "show", none, none, some (.single 1), some (.single 2),
              some "episode"⟩ : FileInfo) "N/A").ledger = [] ∧
          ∀ a ∈ (process_series
            (SeriesEnv.mk "/t" false (fun _ => false) [] none none none [] false)
            [] (SrcFile.mk "/w/b.mkv" "w" ".mkv")
            (⟨some "show", none, none, some (.single 1), some (.single 2),
              some "episode"⟩ : FileInfo) "N/A").actions, ∀ k v,
            a ≠ Action.putRecord k v)) :=
  ⟨rfl, rfl, C8_link_failure_no_ledger_write
    (MovieEnv.mk "/m" false (fun _ => false) ["Action"] (fun _ => false) false)
    (SeriesEnv.mk "/t" false (fun _ => false) [] none none none [] false)
    [] [] (SrcFile.mk "/w/a.mkv" "w" ".mkv") (SrcFile.mk "/w/b.mkv" "w" ".mkv")
    (⟨some "Some Movie", none, some 2021, none, none, some "movie"⟩ : FileInfo)
    (⟨some "show", none, none, some (.single 1), some (.single 2), some "episode"⟩ : FileInfo)
    "12345" "N/A" rfl rfl⟩

/-! ## C3: movie target-path postcondition -/

/-- The movie target directory as the claim formulates it:
`Bucket/"T (Y) \x7btmdb-R\x7d"` under the movies root, where `Bucket` is
the fixed recent-year bucket when `Y` equals the processing epoch's year
(overriding genre bucketing), otherwise the first returned genre,
otherwise `"Uncategorized"`; the `tmdb-R` fragment is omitted (leaving the
bare braces) when `R` is the `"N/A"` sentinel. -/
def specMovieTargetDir (moviesTarget : String) (genres : List String) (t : String)
    (y : Nat) (tmdbId : String) : String :=
  moviesTarget ++ "/" ++
    (if y = processingEpochYear then recentYearBucketName
     else
       match genres with
       | g :: _ => g
       | [] => "Uncategorized") ++ "/" ++
    (t ++ " (" ++ toString y ++ ") " ++ "\x7b" ++
      (if tmdbId ≠ "N/A" then "tmdb-" ++ tmdbId else "") ++ "\x7d")

theorem movieDirFor_eq_spec (env : MovieEnv) (t : String) (y : Nat) (tmdbId : String) :
    movieDirFor env t y tmdbId = specMovieTargetDir env.moviesTarget env.genres t y tmdbId :=
  rfl

/-- C3: a movie with parsed (already title-cased) title `t`, year `y` and
resolver result `tmdbId` that reaches link creation is linked at
`Bucket/"t (y) \x7btmdb-id\x7d"/"t<ext>"` under the movies root — the
bucket is the fixed recent-year bucket when `y` is the processing epoch's
year, else the first genre, else `"Uncategorized"`, and the id fragment is
omitted for `"N/A"` — with the matching ledger write. -/
theorem C3_movie_target_path (env : MovieEnv) (ledger : Ledger) (src : SrcFile)
    (info : FileInfo) (tmdbId t : String) (y : Nat)
    (htitle : info.title = some t) (htc : titlecase t = t) (ht0 : ¬t = "")
    (hyear : info.year = some y) (hy0 : ¬y = 0)
    (hnohit : ledgerHit env.isSymlink ledger src.path = none)
    (hempty : env.dirNonEmpty (specMovieTargetDir env.moviesTarget env.genres t y tmdbId) =
      false)
    (hok : env.symlinkOk = true) :
    process_movie env ledger src info tmdbId =
      ⟨[Action.mkdir (specMovieTargetDir env.moviesTarget env.genres t y tmdbId),
        Action.mklink (specMovieTargetDir env.moviesTarget env.genres t y tmdbId ++ "/" ++
          t ++ src.suffix) src.path,
        Action.putRecord src.path (specMovieTargetDir env.moviesTarget env.genres t y tmdbId ++
          "/" ++ t ++ src.suffix)],
       add_symlink ledger src.path (specMovieTargetDir env.moviesTarget env.genres t y tmdbId ++
         "/" ++ t ++ src.suffix),
       .linked (specMovieTargetDir env.moviesTarget env.genres t y tmdbId ++ "/" ++ t ++
         src.suffix)⟩ := by
  simp [process_movie, htitle, htc, hnohit, hyear, ht0, hy0, movieDirFor_eq_spec, hempty, hok]

/-- Witness for `C3_movie_target_path`: Scenario A — the source
`Some.Movie.2021.1080p.BluRay.x264-GROUP.mkv`, id `12345`, genre `Action`
is linked at `Action/Some Movie (2021) \x7btmdb-12345\x7d/Some Movie.mkv`
under the movies root. -/
theorem C3_movie_target_path_witness :
    titlecase "Some Movie" = "Some Movie" ∧
      ledgerHit (fun _ => false) []
        (SrcFile.mk "/watch/movies/Some.Movie.2021.1080p.BluRay.x264-GROUP.mkv" "movies"
          ".mkv").path = none ∧
      process_movie
          (MovieEnv.mk "/movies" true (fun _ => false) ["Action"] (fun _ => false) true) []
          (SrcFile.mk "/watch/movies/Some.Movie.2021.1080p.BluRay.x264-GROUP.mkv" "movies"
            ".mkv")
          (⟨some "Some Movie", none, some 2021, none, none, some "movie"⟩ : FileInfo)
          "12345" =
        ⟨[Action.mkdir "/movies/Action/Some Movie (2021) \x7btmdb-12345\x7d",
          Action.mklink "/movies/Action/Some Movie (2021) \x7btmdb-12345\x7d/Some Movie.mkv"
            "/watch/movies/Some.Movie.2021.1080p.BluRay.x264-GROUP.mkv",
          Action.putRecord "/watch/movies/Some.Movie.2021.1080p.BluRay.x264-GROUP.mkv"
            "/movies/Action/Some Movie (2021) \x7btmdb-12345\x7d/Some Movie.mkv"],
         [("/watch/movies/Some.Movie.2021.1080p.BluRay.x264-GROUP.mkv",
           "/movies/Action/Some Movie (2021) \x7btmdb-12345\x7d/Some Movie.mkv")],
         .linked "/movies/Action/Some Movie (2021) \x7btmdb-12345\x7d/Some Movie.mkv"⟩ :=
  ⟨by decide, rfl,
    (C3_movie_target_path
      (MovieEnv.mk "/movies" true (fun _ => false) ["Action"] (fun _ => false) true) []
      (SrcFile.mk "/watch/movies/Some.Movie.2021.1080p.BluRay.x264-GROUP.mkv" "movies" ".mkv")
      (⟨some "Some Movie", none, some 2021, none, none, some "movie"⟩ : FileInfo)
      "12345" "Some Movie" 2021 rfl (by decide) (by decide) rfl (by decide) rfl rfl
      rfl).trans (by decide)⟩

/-! ## C6: Scenario B episode naming -/

/-- C6: an episode parsed as title `"show"`, season 1, episode 2 with a
`.mkv` suffix, resolver `"N/A"` and no normalized-match series directory
is linked as `Show/Season 01/Show - s01e02 - Unknown Title.mkv` under the
series root: the series directory name `"Show"` carries no external-id
fragment, the season folder is zero-padded, and the missing canonical
episode title degrades to the literal `"Unknown Title"` while the source
suffix is preserved. -/
theorem C6_scenario_b (env : SeriesEnv) (ledger : Ledger) (src : SrcFile) (info : FileInfo)
    (ht : info.title = some "show")
    (hty : info.ftype = some "episode")
    (hsea : info.season = some (.single 1))
    (hepi : info.episode = some (.single 2))
    (hsuf : src.suffix = ".mkv")
    (hnohit : ledgerHit env.isSymlink ledger src.path = none)
    (hmatch : seriesDirMatches env "Show" = [])
    (hept : env.episodeTitleResult = none)
    (hsf : env.seasonFiles.filter (fun f => decide (normalize_dir_name f =
        normalize_dir_name "Show - s01e02 - Unknown Title.mkv")) = [])
    (hok : env.symlinkOk = true) :
    process_series env ledger src info "N/A" =
      ⟨[Action.mkdir (env.seriesTarget ++ "/" ++ "Show"),
        Action.mkdir (env.seriesTarget ++ "/" ++ "Show" ++ "/Season " ++ "01"),
        Action.mklink (env.seriesTarget ++ "/" ++ "Show" ++ "/Season " ++ "01" ++ "/" ++
          "Show - s01e02 - Unknown Title.mkv") src.path,
        Action.putRecord src.path (env.seriesTarget ++ "/" ++ "Show" ++ "/Season " ++ "01" ++
          "/" ++ "Show - s01e02 - Unknown Title.mkv")],
       add_symlink ledger src.path (env.seriesTarget ++ "/" ++ "Show" ++ "/Season " ++ "01" ++
         "/" ++ "Show - s01e02 - Unknown Title.mkv"),
       .linked (env.seriesTarget ++ "/" ++ "Show" ++ "/Season " ++ "01" ++ "/" ++
         "Show - s01e02 - Unknown Title.mkv")⟩ := by
  have htc : titlecase "show" = "Show" := by decide
  have hyear : findParenYear "Show" = none := by decide
  have hsel : seriesDirSelect env "Show" none "N/A" = some "Show" := by
    simp [seriesDirSelect, hmatch]
  have hp1 : pad2 1 = "01" := by decide
  have hp2 : pad2 2 = "02" := by decide
  have hfn : "Show" ++ " - s" ++ "01" ++ "e" ++ "02" ++ " - " ++ "Unknown Title" ++ ".mkv" =
      "Show - s01e02 - Unknown Title.mkv" := by decide
  simp [process_series, ht, hty, hsea, hepi, hsuf, hnohit, htc, hyear, hsel, hept, hok,
    seTruthy, seFirst, hp1, hp2, hfn, hsf]

/-- Witness for `C6_scenario_b` with the series root `/tv`: the link is
created at `/tv/Show/Season 01/Show - s01e02 - Unknown Title.mkv`. -/
theorem C6_scenario_b_witness :
    titlecase "show" = "Show" ∧
      seriesDirMatches
        (SeriesEnv.mk "/tv" true (fun _ => false) [] none none none [] true) "Show" = [] ∧
      process_series (SeriesEnv.mk "/tv" true (fun _ => false) [] none none none [] true) []
          (SrcFile.mk "/watch/tv/show.s01e02.mkv" "tv" ".mkv")
          (⟨some "show", none, none, some (.single 1), some (.single 2),
            some "episode"⟩ : FileInfo) "N/A" =
        ⟨[Action.mkdir "/tv/Show",
          Action.mkdir "/tv/Show/Season 01",
          Action.mklink "/tv/Show/Season 01/Show - s01e02 - Unknown Title.mkv"
            "/watch/tv/show.s01e02.mkv",
          Action.putRecord "/watch/tv/show.s01e02.mkv"
            "/tv/Show/Season 01/Show - s01e02 - Unknown Title.mkv"],
         [("/watch/tv/show.s01e02.mkv",
           "/tv/Show/Season 01/Show - s01e02 - Unknown Title.mkv")],
         .linked "/tv/Show/Season 01/Show - s01e02 - Unknown Title.mkv"⟩ :=
  ⟨by decide, by decide,
    (C6_scenario_b (SeriesEnv.mk "/tv" true (fun _ => false) [] none none none [] true) []
      (SrcFile.mk "/watch/tv/show.s01e02.mkv" "tv" ".mkv")
      (⟨some "show", none, none, some (.single 1), some (.single 2),
        some "episode"⟩ : FileInfo)
      rfl rfl rfl rfl rfl rfl (by decide) rfl (by decide) rfl).trans (by decide)⟩

/-! ## C2: series directory handling on an exact normalized match -/

/-- C2 counterexample: with an existing series-root directory
`"Some Show"` whose normalized name exactly matches the episode's
normalized series title `"Some Show"`, processing does **not** reuse that
directory: its first side effect creates the fresh top-level directory
`"Some Show (None) (2)"`, and no `mkdir` of the matching directory is ever
performed — contradicting the claim that an exact normalized match reuses
the existing directory and creates no new top-level series directory. -/
theorem C2_counterexample :
    (process_series
        (SeriesEnv.mk "/tv" true (fun _ => false) ["Some Show"] none none none [] true) []
        (SrcFile.mk "/watch/tv/x.mkv" "x" ".mkv")
        (⟨some "Some Show", none, none, some (.single 1), some (.single 2),
          some "episode"⟩ : FileInfo) "12345").actions.head? =
        some (Action.mkdir "/tv/Some Show (None) (2)") ∧
      Action.mkdir "/tv/Some Show" ∉
        (process_series
          (SeriesEnv.mk "/tv" true (fun _ => false) ["Some Show"] none none none [] true) []
          (SrcFile.mk "/watch/tv/x.mkv" "x" ".mkv")
          (⟨some "Some Show", none, none, some (.single 1), some (.single 2),
            some "episode"⟩ : FileInfo) "12345").actions := by
  decide

theorem disambigLoop_not_mem (title : String) (year : Option String) (norms : List String) :
    ∀ (fuel counter : Nat) (name : String),
      disambigLoop title year norms counter fuel = some name →
      normalize_dir_name name ∉ norms := by
  intro fuel
  induction fuel with
  | zero => intro counter name h; simp [disambigLoop] at h
  | succ fuel ih =>
    intro counter name h
    rw [disambigLoop] at h
    by_cases hc : normalize_dir_name (disambigCandidate title year counter) ∈ norms
    · rw [if_pos hc] at h
      exact ih _ _ h
    · rw [if_neg hc] at h
      cases h
      exact hc

/-- C2 (amended): when the normalized series title exactly matches some
existing directory in the series root, the policy does **not** reuse that
directory.  It runs the collision loop, and processing creates a fresh
top-level series directory whose name is the loop's result — the first
candidate (bare title, then `Title ({year}) ({n})` with a missing year
rendered `None`) whose normalization differs from every matching
directory's normalized name; in particular the new name differs from every
matching existing directory name, and the episode's season folder and
link go under the new directory. -/
theorem C2_amended_match_not_reused (env : SeriesEnv) (ledger : Ledger) (src : SrcFile)
    (info : FileInfo) (tmdbId : String) (t0 name : String)
    (ht : (info.title <|> info.series) = some t0)
    (hty : ¬info.ftype = some "movie")
    (hst : ¬titlecase t0 = "")
    (hnohit : ledgerHit env.isSymlink ledger src.path = none)
    (hsea : seTruthy info.season = true)
    (hepi : seTruthy info.episode = true)
    (hne : seriesDirMatches env (titlecase t0) ≠ [])
    (hsel : seriesDirSelect env (titlecase t0) (findParenYear (titlecase t0)) tmdbId =
      some name) :
    (process_series env ledger src info tmdbId).actions.head? =
        some (Action.mkdir (env.seriesTarget ++ "/" ++ name)) ∧
      normalize_dir_name name ∉
        (seriesDirMatches env (titlecase t0)).map normalize_dir_name ∧
      ∀ d ∈ seriesDirMatches env (titlecase t0), name ≠ d := by
  have hloop : disambigLoop (titlecase t0) (findParenYear (titlecase t0))
      ((seriesDirMatches env (titlecase t0)).map normalize_dir_name) 1
      ((seriesDirMatches env (titlecase t0)).length + 2) = some name := by
    simp only [seriesDirSelect] at hsel
    rw [if_neg hne] at hsel
    exact hsel
  have hnm := disambigLoop_not_mem _ _ _ _ _ _ hloop
  refine ⟨?_, hnm, ?_⟩
  · simp [process_series, ht, hty, hst, hsea, hepi, hnohit, hsel]
    split
    · split
      · simp
      · simp
    · simp
  · intro d hd heq
    apply hnm
    rw [heq]
    exact List.mem_map.mpr ⟨d, hd, rfl⟩

/-- Witness for `C2_amended_match_not_reused` at the concrete collision:
an existing directory `"Some Show"` forces the new directory name
`"Some Show (None) (2)"`. -/
theorem C2_amended_match_not_reused_witness :
    seriesDirMatches
        (SeriesEnv.mk "/tv" true (fun _ => false) ["Some Show"] none none none [] true)
        (titlecase "Some Show") ≠ [] ∧
      seriesDirSelect
        (SeriesEnv.mk "/tv" true (fun _ => false) ["Some Show"] none none none [] true)
        (titlecase "Some Show") (findParenYear (titlecase "Some Show")) "12345" =
        some "Some Show (None) (2)" ∧
      ((process_series
          (SeriesEnv.mk "/tv" true (fun _ => false) ["Some Show"] none none none [] true) []
          (SrcFile.mk "/watch/tv/x.mkv" "x" ".mkv")
          (⟨some "Some Show", none, none, some (.single 1), some (.single 2),
            some "episode"⟩ : FileInfo) "12345").actions.head? =
          some (Action.mkdir
            ((SeriesEnv.mk "/tv" true (fun _ => false) ["Some Show"] none none none []
              true).seriesTarget ++ "/" ++ "Some Show (None) (2)")) ∧
        normalize_dir_name "Some Show (None) (2)" ∉
          (seriesDirMatches
            (SeriesEnv.mk "/tv" true (fun _ => false) ["Some Show"] none none none [] true)
            (titlecase "Some Show")).map normalize_dir_name ∧
        ∀ d ∈ seriesDirMatches
            (SeriesEnv.mk "/tv" true (fun _ => false) ["Some Show"] none none none [] true)
            (titlecase "Some Show"), "Some Show (None) (2)" ≠ d) :=
  ⟨by decide, by decide,
    C2_amended_match_not_reused
      (SeriesEnv.mk "/tv" true (fun _ => false) ["Some Show"] none none none [] true) []
      (SrcFile.mk "/watch/tv/x.mkv" "x" ".mkv")
      (⟨some "Some Show", none, none, some (.single 1), some (.single 2),
        some "episode"⟩ : FileInfo)
      "12345" "Some Show" "Some Show (None) (2)"
      rfl (by decide) (by decide) rfl (by decide) (by decide) (by decide) (by decide)⟩

end RDSym
